import Mathlib

/-!
Verification of the dataseap StarRocks adapter and full-text search
orchestrator against its natural-language specification.

The Go source is shallowly embedded:
* `pkg/common/errors`  → `ErrorCode` / `AppError`
* `pkg/adapter/starrocks/client.go` → `Execute`, `StreamLoad`,
  `BeginTransaction`, `CommitTransaction`, `AbortTransaction`, with the
  HTTP transport and JSON unmarshalling supplied as oracle functions
  (`Except`-valued), since the network is outside the program.
* `pkg/domain/query` (full-text search sub-service) → `Search`,
  `buildTableSQL`, `paginateHits`, plus `PaginationRequest.getOffset` /
  `getLimit` from `pkg/common/types/models.go`.

Go `interface{}` values are embedded as `GoValue`; Go maps are embedded
as association lists with overwrite-on-insert (`assocSet`).  Go byte
lengths coincide with character counts on ASCII data, which is how the
snippet truncation is modelled.  The constant placeholder relevance
score (a float of value 1.0) carries no information and is omitted from
the `SearchHit` embedding.
-/

deriving instance DecidableEq for Except

namespace DataSeap

/-- Error codes from `pkg/common/errors/errors.go`. -/
inductive ErrorCode where
  | InvalidArgument
  | InternalError
  | DatabaseError
  | NetworkError
  | ConfigError
  | SerializationError
  | DeserializationError
  deriving DecidableEq

/-- An application error: a code plus a message, as produced by
`errors.New` / `errors.Newf` / `errors.Wrap` in the Go source. -/
structure AppError where
  code : ErrorCode
  message : String
  deriving DecidableEq

/-- Embedding of Go `interface{}` values as they occur in query rows. -/
inductive GoValue where
  | str (s : String)
  | int (n : Int)
  | null
  deriving DecidableEq

/-- Query statistics (`QueryStats` in the adapter interface).  Only the
`Message` field is ever populated by `Execute`. -/
structure QueryStats where
  message : String := ""
  deriving DecidableEq

/-- `QueryResult` from the StarRocks adapter interface: ordered column
names, positional rows, optional statistics. -/
structure QueryResult where
  columns : List String := []
  rows : List (List GoValue) := []
  stats : Option QueryStats := none
  deriving DecidableEq

/-- An HTTP response as seen by the client after reading the body:
numeric status code, status text (Go `resp.Status`), body bytes. -/
structure HttpResponse where
  statusCode : Nat
  status : String
  body : String
  deriving DecidableEq

/-- One `meta` entry of the StarRocks query response envelope. -/
structure SrMetaCol where
  name : String
  type : String
  deriving DecidableEq

/-- The `data` member of the StarRocks query response envelope. -/
structure SrQueryData where
  meta : List SrMetaCol := []
  result : List (List GoValue) := []
  property : List (String × GoValue) := []
  deriving DecidableEq

/-- The StarRocks query response envelope `(code, msg, data)` parsed
from the body by `json.Unmarshal` in `Execute`. -/
structure SrQueryEnvelope where
  msg : String := ""
  code : Int := 0
  data : SrQueryData := {}
  deriving DecidableEq

/-- `starrocksClient.Execute` (client.go).  `transport` is the oracle
for request creation + `httpClient.Do` + body read (any failure there is
a transport failure); `parse` is the oracle for `json.Unmarshal` of the
body into the response envelope.  The pipeline order is the source's:
transport failure, then non-OK HTTP status, then unmarshal failure,
then non-zero envelope code, then success. -/
def Execute (transport : Except String HttpResponse)
    (parse : String → Except String SrQueryEnvelope) :
    Except AppError QueryResult :=
  match transport with
  | .error _ => .error ⟨.NetworkError, "failed to execute StarRocks query"⟩
  | .ok resp =>
    if resp.statusCode ≠ 200 then
      .error ⟨.DatabaseError,
        "StarRocks query failed: " ++ resp.status ++ ", Response: " ++ resp.body⟩
    else
      match parse resp.body with
      | .error _ =>
        .error ⟨.DeserializationError,
          "failed to unmarshal StarRocks response: " ++ resp.body⟩
      | .ok env =>
        if env.code ≠ 0 then
          .error ⟨.DatabaseError,
            "StarRocks query error: Code " ++ toString env.code ++ ", Msg: " ++ env.msg⟩
        else
          .ok { columns := env.data.meta.map (·.name)
                rows := env.data.result
                stats := some {} }

/-- `StreamLoadOptions` from the adapter interface.  `MaxFilterRatio`
is a Go `float64`; it is embedded as a rational number. -/
structure StreamLoadOptions where
  format : String := ""
  columnSeparator : String := ""
  rowDelimiter : String := ""
  stripOuterArray : Bool := false
  timeoutSeconds : Int := 0
  maxFilterRatio : Rat := 0
  headers : List (String × String) := []
  mergeCondition : String := ""
  twoPhaseCommit : Bool := false
  transactionID : String := ""
  deriving DecidableEq

/-- `StreamLoadResponse` from the adapter interface (the flat JSON body
of a stream load reply). -/
structure StreamLoadResponse where
  txnID : Int := 0
  label : String := ""
  status : String := ""
  existingTxnID : Int := 0
  message : String := ""
  numberTotalRows : Int := 0
  numberLoadedRows : Int := 0
  numberFilteredRows : Int := 0
  numberUnselectedRows : Int := 0
  loadBytes : Int := 0
  loadTimeMs : Int := 0
  beginTxnTimeMs : Int := 0
  streamLoadPutTimeMs : Int := 0
  readDataTimeMs : Int := 0
  writeDataTimeMs : Int := 0
  commitAndPublishTimeMs : Int := 0
  errorURL : String := ""
  deriving DecidableEq

/-- The option-defaulting prologue of `starrocksClient.StreamLoad`
(client.go): a nil options pointer becomes empty options, an empty
`Format` becomes `"json"`, a zero `TimeoutSeconds` becomes 300. -/
def resolveStreamLoadOptions (opts : Option StreamLoadOptions) : StreamLoadOptions :=
  let o := match opts with
    | none => {}
    | some o => o
  let o := if o.format = "" then { o with format := "json" } else o
  if o.timeoutSeconds = 0 then { o with timeoutSeconds := 300 } else o

/-- `starrocksClient.StreamLoad` (client.go).  The request build + HTTP
round trip + body read is the `doRequest` oracle, which receives the
effective (defaulted) options the request headers are built from;
`parse` is the `json.Unmarshal` oracle.  The Go function returns the
pair `(*StreamLoadResponse, error)`, both possibly non-nil, embedded as
`Option StreamLoadResponse × Option AppError`. -/
def StreamLoad (doRequest : StreamLoadOptions → Except String HttpResponse)
    (parse : String → Except String StreamLoadResponse)
    (opts : Option StreamLoadOptions) :
    Option StreamLoadResponse × Option AppError :=
  let effOpts := resolveStreamLoadOptions opts
  match doRequest effOpts with
  | .error _ => (none, some ⟨.NetworkError, "StreamLoad request failed"⟩)
  | .ok resp =>
    match parse resp.body with
    | .error _ =>
      if resp.statusCode ≠ 200 then
        (none, some ⟨.DeserializationError,
          "StreamLoad failed with status " ++ resp.status
            ++ " and unparsable body: " ++ resp.body⟩)
      else
        (none, some ⟨.DeserializationError,
          "failed to unmarshal StreamLoad response: " ++ resp.body⟩)
    | .ok sr =>
      if sr.status ≠ "Success" ∧ sr.status ≠ "Publish Timeout" then
        (some sr, some ⟨.DatabaseError,
          "StreamLoad failed: Status " ++ sr.status ++ ", Message: " ++ sr.message
            ++ ", ErrorURL: " ++ sr.errorURL⟩)
      else
        (some sr, none)

/-- The anonymous response struct parsed by `BeginTransaction`:
`Status`, `TxnId`, `msg` (and nothing else — in particular, no
existing-transaction-id member). -/
structure TxnBeginEnvelope where
  status : String := ""
  txnId : Int := 0
  msg : String := ""
  deriving DecidableEq

/-- The anonymous response struct parsed by `CommitTransaction` and
`AbortTransaction`: `Status` and `msg`. -/
structure TxnActionEnvelope where
  status : String := ""
  msg : String := ""
  deriving DecidableEq

/-- `starrocksClient.BeginTransaction` (client.go).  `transport` is the
oracle for request creation + round trip + body read (body bytes on
success); `parse` is the `json.Unmarshal` oracle.  A non-`Success`
status fails with `DatabaseError`; otherwise the engine-assigned
transaction id is returned. -/
def BeginTransaction (transport : Except String String)
    (parse : String → Except String TxnBeginEnvelope) :
    Except AppError Int :=
  match transport with
  | .error _ => .error ⟨.NetworkError, "begin transaction request failed"⟩
  | .ok body =>
    match parse body with
    | .error _ =>
      .error ⟨.DeserializationError,
        "failed to unmarshal begin transaction response: " ++ body⟩
    | .ok env =>
      if env.status ≠ "Success" then
        .error ⟨.DatabaseError,
          "failed to begin transaction: " ++ env.status ++ " - " ++ env.msg⟩
      else
        .ok env.txnId

/-- `starrocksClient.CommitTransaction` (client.go): a non-`Success`
status fails with `DatabaseError`. -/
def CommitTransaction (transport : Except String String)
    (parse : String → Except String TxnActionEnvelope) :
    Option AppError :=
  match transport with
  | .error _ => some ⟨.NetworkError, "commit transaction request failed"⟩
  | .ok body =>
    match parse body with
    | .error _ =>
      some ⟨.DeserializationError,
        "failed to unmarshal commit transaction response: " ++ body⟩
    | .ok env =>
      if env.status ≠ "Success" then
        some ⟨.DatabaseError,
          "failed to commit transaction: " ++ env.status ++ " - " ++ env.msg⟩
      else
        none

/-- `starrocksClient.AbortTransaction` (client.go): once the response
body unmarshals, a non-`Success` status is only logged — the function
returns nil either way. -/
def AbortTransaction (transport : Except String String)
    (parse : String → Except String TxnActionEnvelope) :
    Option AppError :=
  match transport with
  | .error _ => some ⟨.NetworkError, "abort transaction request failed"⟩
  | .ok body =>
    match parse body with
    | .error _ =>
      some ⟨.DeserializationError,
        "failed to unmarshal abort transaction response: " ++ body⟩
    | .ok _ =>
      none

/-- `PaginationRequest` from `pkg/common/types/models.go`.  Fields are
Go `int`s, embedded as `Int`. -/
structure PaginationRequest where
  page : Int
  pageSize : Int
  deriving DecidableEq

/-- `PaginationRequest.GetOffset` (models.go): pages at or below zero
are clamped to 1, page sizes at or below zero to the placeholder
default 10, then the offset is `(page - 1) * pageSize`.  The Go method
mutates the receiver, so the subsequent `GetLimit` call in `Search`
sees the clamped page size; the functional embedding of the pair below
is equivalent. -/
def PaginationRequest.getOffset (pr : PaginationRequest) : Int :=
  let page := if pr.page ≤ 0 then 1 else pr.page
  let pageSize := if pr.pageSize ≤ 0 then 10 else pr.pageSize
  (page - 1) * pageSize

/-- `PaginationRequest.GetLimit` (models.go): the page size, with the
at-or-below-zero case replaced by the placeholder default 10. -/
def PaginationRequest.getLimit (pr : PaginationRequest) : Int :=
  if pr.pageSize ≤ 0 then 10 else pr.pageSize

/-- `commontypes.TimeRange` (time-range filter carried by the search
request; the search implementation never reads it). -/
structure TimeRange where
  startTime : Int
  endTime : Int
  deriving DecidableEq

/-- `model.FullTextSearchRequest` from
`pkg/domain/query/model/query_request.go`.  `AdditionalFilters` is a Go
map, embedded as an association list. -/
structure FullTextSearchRequest where
  keywords : String
  targetTables : List String := []
  targetFields : List String := []
  tokenizer : String := ""
  recallPriority : Bool := false
  pagination : Option PaginationRequest := none
  timeRangeFilter : Option TimeRange := none
  additionalFilters : List (String × GoValue) := []
  deriving DecidableEq

/-- `model.SearchHit`: table of origin, best-effort extracted id, the
full row as a document map, and the per-field snippet map.  The
constant placeholder score (float 1.0) is omitted. -/
structure SearchHit where
  sourceTable : String
  id : String
  document : List (String × GoValue)
  hitFields : List (String × String)
  deriving DecidableEq

/-- `model.FullTextSearchResult` as populated by `Search`: the
(client-side paginated) hits, the echoed pagination request, and the
approximate total-hit count. -/
structure FullTextSearchResult where
  hits : List SearchHit
  pagination : Option PaginationRequest
  totalHits : Int
  deriving DecidableEq

/-- Go map assignment `m[k] = v` on an association list: overwrite the
existing entry for `k`, or append a new one. -/
def assocSet {α : Type} (m : List (String × α)) (k : String) (v : α) :
    List (String × α) :=
  if m.any (·.1 = k) then
    m.map (fun kv => if kv.1 = k then (k, v) else kv)
  else
    m ++ [(k, v)]

/-- Go `strings.Contains s pat`: the pattern occurs at some position of
`s` (always true for the empty pattern). -/
def strContains (s pat : String) : Bool :=
  (List.range (s.data.length + 1)).any
    (fun i => pat.data.isPrefixOf (s.data.drop i))

/-- The match-operator choice of `Search` (part_007): start from
`MATCH_ANY` and switch to `MATCH_ALL` when recall priority is off. -/
def matchOperator (recallPriority : Bool) : String :=
  if !recallPriority then "MATCH_ALL" else "MATCH_ANY"

/-- One per-field match clause of `Search` (part_007):
`fmt.Sprintf("%s %s '%s'", field, matchOperator, req.Keywords)`. -/
def matchClause (field op keywords : String) : String :=
  field ++ " " ++ op ++ " \x27" ++ keywords ++ "\x27"

/-- The SQL statement `Search` builds for one target table (part_007):
the OR-join of the per-field match clauses as the WHERE clause, with
the fixed per-table `LIMIT 1000 OFFSET 0`.  The request's
time-range/equality filters are not consulted (a TODO in the source). -/
def buildTableSQL (req : FullTextSearchRequest) (tableName : String) : String :=
  let op := matchOperator req.recallPriority
  let matchClauses := req.targetFields.map (fun f => matchClause f op req.keywords)
  let whereClause := String.intercalate " OR " matchClauses
  "SELECT * FROM " ++ tableName ++ " WHERE " ++ whereClause
    ++ " LIMIT 1000 OFFSET 0"

/-- The document-id extraction of `Search` (part_007): scanning the
columns in order (paired with the row values), each column whose
lowercase name is `id` or ends in `_id` overwrites the id with its
string value, or its decimal rendering for an int64 value; other value
types leave the id unchanged. -/
def extractDocID (columns : List String) (row : List GoValue) : String :=
  (columns.zip row).foldl
    (fun acc cv =>
      if cv.1.toLower = "id" ∨ (cv.1.toLower).endsWith "_id" then
        match cv.2 with
        | .str s => s
        | .int n => toString n
        | .null => acc
      else acc)
    ""

/-- The document map of `Search` (part_007): `doc[colName] = srRow[j]`
for every column index that is in range for the row. -/
def buildDocument (columns : List String) (row : List GoValue) :
    List (String × GoValue) :=
  (columns.zip row).foldl (fun m cv => assocSet m cv.1 cv.2) []

/-- The snippet truncation of `Search` (part_007): strings longer than
100 characters are cut to 100 plus an ellipsis. -/
def snippetOf (valStr : String) : String :=
  if valStr.length > 100 then valStr.take 100 ++ "..." else valStr

/-- The snippet map of `Search` (part_007): for each (column, value)
pair and each searched field equal to that column name, a string value
that case-insensitively contains the keywords is stored (truncated) as
that column's snippet. -/
def buildHitFields (keywords : String) (fieldsInTable : List String)
    (columns : List String) (row : List GoValue) : List (String × String) :=
  (columns.zip row).foldl
    (fun m cv =>
      fieldsInTable.foldl
        (fun m f =>
          if cv.1 = f then
            match cv.2 with
            | .str s =>
              if strContains s.toLower keywords.toLower then
                assocSet m cv.1 (snippetOf s)
              else m
            | _ => m
          else m)
        m)
    []

/-- `Search`'s row-to-hit transformation (part_007), in one value. -/
def buildSearchHit (keywords : String) (fieldsInTable : List String)
    (tableName : String) (columns : List String) (row : List GoValue) :
    SearchHit :=
  { sourceTable := tableName
    id := extractDocID columns row
    document := buildDocument columns row
    hitFields := buildHitFields keywords fieldsInTable columns row }

/-- One iteration of `Search`'s per-table loop (part_007), accumulating
`(allHits, totalHitsAcrossTables)`: a failed `Execute` is logged and
skipped; a succeeded one appends its transformed rows and adds its row
count (both branches of the source's `Stats` conditional add the same
row count). -/
def searchTableStep (exec : String → Except AppError QueryResult)
    (req : FullTextSearchRequest) (acc : List SearchHit × Int)
    (tableName : String) : List SearchHit × Int :=
  match exec (buildTableSQL req tableName) with
  | .error _ => acc
  | .ok res =>
    (acc.1 ++ res.rows.map (buildSearchHit req.keywords req.targetFields tableName res.columns),
     acc.2 + res.rows.length)

/-- The per-table hit list produced by a table inside `Search`
(part_007): empty when the table's query fails, otherwise the
transformed rows. -/
def tableHits (exec : String → Except AppError QueryResult)
    (req : FullTextSearchRequest) (tableName : String) : List SearchHit :=
  match exec (buildTableSQL req tableName) with
  | .error _ => []
  | .ok res =>
    res.rows.map (buildSearchHit req.keywords req.targetFields tableName res.columns)

/-- The per-table row count a table contributes to
`totalHitsAcrossTables` inside `Search` (part_007). -/
def tableRowCount (exec : String → Except AppError QueryResult)
    (req : FullTextSearchRequest) (tableName : String) : Int :=
  match exec (buildTableSQL req tableName) with
  | .error _ => 0
  | .ok res => res.rows.length

/-- The client-side pagination block at the end of `Search` (part_007):
with no pagination request the collected hits pass through; otherwise
`start := GetOffset()`, `stop := start + GetLimit()`, `start` clamped
below at 0, the empty slice when `start` reaches the hit count, else
the Go slice `allHits[start:stop]` with `stop` clamped to the hit
count. -/
def paginateHits (pagination : Option PaginationRequest)
    (allHits : List SearchHit) : List SearchHit :=
  match pagination with
  | none => allHits
  | some pr =>
    let start := pr.getOffset
    let stop := start + pr.getLimit
    let start := if start < 0 then 0 else start
    if start ≥ (allHits.length : Int) then
      []
    else
      let stop := if stop > (allHits.length : Int) then (allHits.length : Int) else stop
      (allHits.take stop.toNat).drop start.toNat

/-- `fullTextSearchSubServiceImpl.Search` (part_007).  `exec` is the
oracle for `starrocksClient.Execute` on the SQL strings the search
builds.  Empty target tables fail fast with `InvalidArgument`; empty
target fields hit the per-table check on the first loop iteration
(hence the first table's name in the message) before any query runs.
Then the per-table loop folds `searchTableStep` over the tables, and
the collected hits are client-side paginated. -/
def Search (exec : String → Except AppError QueryResult)
    (req : FullTextSearchRequest) : Except AppError FullTextSearchResult :=
  if req.targetTables.isEmpty then
    .error ⟨.InvalidArgument,
      "TargetTables must be specified for full-text search (auto-discovery not yet implemented)"⟩
  else if req.targetFields.isEmpty then
    .error ⟨.InvalidArgument,
      "TargetFields must be specified for table " ++ req.targetTables.headD ""
        ++ " (auto-discovery not yet implemented)"⟩
  else
    let acc := req.targetTables.foldl (searchTableStep exec req) ([], 0)
    .ok { hits := paginateHits req.pagination acc.1
          pagination := req.pagination
          totalHits := acc.2 }

/-! ### Helper lemmas (shared) -/

/-- The per-table loop of `Search` folds to the concatenation of the
per-table hit lists (in table order) and the sum of the per-table row
counts. -/
theorem foldl_searchTableStep (exec : String → Except AppError QueryResult)
    (req : FullTextSearchRequest) (tables : List String)
    (acc : List SearchHit × Int) :
    tables.foldl (searchTableStep exec req) acc
      = (acc.1 ++ (tables.map (tableHits exec req)).flatten,
         acc.2 + (tables.map (tableRowCount exec req)).sum) := by
  induction tables generalizing acc with
  | nil => simp
  | cons t ts ih =>
    rw [List.foldl_cons, ih]
    cases h : exec (buildTableSQL req t) <;>
      simp [searchTableStep, tableHits, tableRowCount, h, add_assoc]

/-- `Search` on a request with non-empty target tables and fields:
the per-table results are concatenated in table order and client-side
paginated, and the total is the sum of per-table row counts. -/
theorem search_eq_of_valid (exec : String → Except AppError QueryResult)
    (req : FullTextSearchRequest)
    (ht : req.targetTables ≠ []) (hf : req.targetFields ≠ []) :
    Search exec req
      = .ok { hits := paginateHits req.pagination
                        ((req.targetTables.map (tableHits exec req)).flatten)
              pagination := req.pagination
              totalHits := (req.targetTables.map (tableRowCount exec req)).sum } := by
  have h1 : req.targetTables.isEmpty = false := by
    simpa [List.isEmpty_iff] using ht
  have h2 : req.targetFields.isEmpty = false := by
    simpa [List.isEmpty_iff] using hf
  rw [Search, h1, h2]
  simp [foldl_searchTableStep]

/-- Removing list entries whose image is `[]` does not change the
concatenation of the images. -/
theorem join_map_filter_of_nil {α β : Type} (l : List α) (f : α → List β)
    (p : α → Bool) (h : ∀ x ∈ l, p x = false → f x = []) :
    ((l.filter p).map f).flatten = (l.map f).flatten := by
  induction l with
  | nil => simp
  | cons x xs ih =>
    have hx : ∀ y ∈ xs, p y = false → f y = [] := by
      intro y hy hpy
      exact h y (List.mem_cons_of_mem x hy) hpy
    cases hp : p x with
    | true => simp [List.filter_cons, hp, ih hx]
    | false => simp [List.filter_cons, hp, ih hx, h x (List.mem_cons_self x xs) hp]

/-! ### Claim theorems -/

/-- Claim C4: for every collected hit sequence and every requested
page ≥ 1, pageSize ≥ 1, the paginator returns the contiguous slice
starting at `(page-1)*pageSize` of length at most `pageSize`, clamped
to the sequence bounds, and returns the empty slice whenever the start
index is at or beyond the sequence length. -/
theorem paginate_window (hits : List SearchHit) (page pageSize : Int)
    (hp : 1 ≤ page) (hs : 1 ≤ pageSize) :
    paginateHits (some ⟨page, pageSize⟩) hits
        = (hits.drop ((page - 1) * pageSize).toNat).take pageSize.toNat
      ∧ ((hits.length : Int) ≤ (page - 1) * pageSize →
          paginateHits (some ⟨page, pageSize⟩) hits = []) := by
  have hstart : 0 ≤ (page - 1) * pageSize := mul_nonneg (by omega) (by omega)
  have h1 : ¬ page ≤ 0 := by omega
  have h2 : ¬ pageSize ≤ 0 := by omega
  constructor
  · rw [paginateHits, PaginationRequest.getOffset, PaginationRequest.getLimit]
    simp only [if_neg h1, if_neg h2]
    set start := (page - 1) * pageSize with hstartdef
    have h3 : ¬ start < 0 := by omega
    rw [if_neg h3]
    by_cases h4 : start ≥ (hits.length : Int)
    · rw [if_pos h4]
      have : hits.length ≤ start.toNat := by omega
      rw [List.drop_eq_nil_of_le this, List.take_nil]
    · rw [if_neg h4]
      by_cases h5 : start + pageSize > (hits.length : Int)
      · rw [if_pos h5]
        rw [List.drop_take]
        have hlen : (hits.drop start.toNat).length = hits.length - start.toNat := by
          simp
        rw [List.take_of_length_le (by omega), List.take_of_length_le (by omega)]
      · rw [if_neg h5, List.drop_take]
        congr 1
        omega
  · intro hle
    rw [paginateHits, PaginationRequest.getOffset, PaginationRequest.getLimit]
    simp only [if_neg h1, if_neg h2]
    have h3 : ¬ (page - 1) * pageSize < 0 := by omega
    rw [if_neg h3, if_pos (by omega)]

/-- Claim C5: for every search request, the per-field predicate uses
`MATCH_ANY` when `RecallPriority` is true and `MATCH_ALL` when it is
false, for every configured field, and the per-field predicates of one
table are joined with `OR` into the WHERE clause. -/
theorem match_operator_selection (req : FullTextSearchRequest) (tableName : String) :
    matchOperator req.recallPriority
        = (if req.recallPriority then "MATCH_ANY" else "MATCH_ALL")
    ∧ buildTableSQL req tableName
        = "SELECT * FROM " ++ tableName ++ " WHERE "
            ++ String.intercalate " OR "
                (req.targetFields.map (fun f =>
                  f ++ " "
                    ++ (if req.recallPriority then "MATCH_ANY" else "MATCH_ALL")
                    ++ " \x27" ++ req.keywords ++ "\x27"))
            ++ " LIMIT 1000 OFFSET 0" := by
  cases hr : req.recallPriority <;>
    simp [matchOperator, buildTableSQL, matchClause, hr]

/-- A request with both optional filters populated, used to exhibit
that the built SQL ignores them. -/
def reqFiltered : FullTextSearchRequest :=
  { keywords := "kw"
    targetTables := ["events"]
    targetFields := ["msg"]
    recallPriority := true
    timeRangeFilter := some ⟨1700000000, 1700003600⟩
    additionalFilters := [("status", .str "active")] }

/-- Dropping the time-range filter and the additional equality filters
from a request. -/
def clearFilters (req : FullTextSearchRequest) : FullTextSearchRequest :=
  { req with timeRangeFilter := none, additionalFilters := [] }

/-- Claim C3, counterexample: a request carrying a time-range filter
(1700000000..1700003600) and an equality filter (status = active) produces a
per-table SQL whose WHERE clause is only the match predicate — the SQL
contains no AND, no trace of the bounds or of the filter value, and is
identical to the SQL built with the filters removed, so rows outside
the time range are not excluded. -/
theorem filters_not_in_sql_cex :
    buildTableSQL reqFiltered "events"
        = "SELECT * FROM events WHERE msg MATCH_ANY \x27kw\x27 LIMIT 1000 OFFSET 0"
    ∧ buildTableSQL reqFiltered "events"
        = buildTableSQL (clearFilters reqFiltered) "events"
    ∧ strContains (buildTableSQL reqFiltered "events") " AND " = false
    ∧ strContains (buildTableSQL reqFiltered "events") "1700000000" = false
    ∧ strContains (buildTableSQL reqFiltered "events") "active" = false := by
  refine ⟨by decide, by decide, by decide, by decide, by decide⟩

/-- Claim C3, amended: the per-table SQL and the whole `Search` result
are unchanged when the time-range filter and the additional equality
filters are removed from the request — the source never reads them
(a TODO in part_007). -/
theorem filters_ignored (req : FullTextSearchRequest) (tableName : String)
    (exec : String → Except AppError QueryResult) :
    buildTableSQL req tableName = buildTableSQL (clearFilters req) tableName
    ∧ Search exec req = Search exec (clearFilters req) := by
  exact ⟨rfl, rfl⟩

/-- An `Execute` oracle that answers every query with an empty result;
used to show that the validation failures do not depend on the engine. -/
def execAny : String → Except AppError QueryResult := fun _ => .ok {}

/-- An `Execute` oracle that fails every query. -/
def execNone : String → Except AppError QueryResult :=
  fun _ => .error ⟨.NetworkError, "unreachable"⟩

/-- Claim C9: a search request with an empty target-table list, and a
request with a non-empty table list but an empty target-field list,
both make `Search` return an `InvalidArgument` error, and the outcome
is independent of the query engine — no per-table query is executed,
and no auto-discovery fallback exists. -/
theorem search_requires_explicit_targets
    (exec exec2 : String → Except AppError QueryResult)
    (req : FullTextSearchRequest) :
    (req.targetTables = [] →
        Search exec req
            = .error ⟨.InvalidArgument,
                "TargetTables must be specified for full-text search (auto-discovery not yet implemented)"⟩
          ∧ Search exec req = Search exec2 req)
    ∧ (req.targetTables ≠ [] → req.targetFields = [] →
        Search exec req
            = .error ⟨.InvalidArgument,
                "TargetFields must be specified for table " ++ req.targetTables.headD ""
                  ++ " (auto-discovery not yet implemented)"⟩
          ∧ Search exec req = Search exec2 req) := by
  constructor
  · intro h
    have h1 : req.targetTables.isEmpty = true := by simp [List.isEmpty_iff, h]
    rw [Search, Search, h1]
    exact ⟨rfl, rfl⟩
  · intro h hf
    have h1 : req.targetTables.isEmpty = false := by simpa [List.isEmpty_iff] using h
    have h2 : req.targetFields.isEmpty = true := by simp [List.isEmpty_iff, hf]
    rw [Search, Search, h1, h2]
    exact ⟨rfl, rfl⟩

/-- Claim C9, witness: concrete instances of both validation failures,
each independent of the engine oracle. -/
theorem search_requires_explicit_targets_witness :
    (Search execAny { keywords := "kw", targetTables := [], targetFields := ["msg"] }
        = .error ⟨.InvalidArgument,
            "TargetTables must be specified for full-text search (auto-discovery not yet implemented)"⟩
      ∧ Search execAny { keywords := "kw", targetTables := [], targetFields := ["msg"] }
          = Search execNone { keywords := "kw", targetTables := [], targetFields := ["msg"] })
    ∧ (Search execAny { keywords := "kw", targetTables := ["tA", "tB"], targetFields := [] }
        = .error ⟨.InvalidArgument,
            "TargetFields must be specified for table tA (auto-discovery not yet implemented)"⟩
      ∧ Search execAny { keywords := "kw", targetTables := ["tA", "tB"], targetFields := [] }
          = Search execNone { keywords := "kw", targetTables := ["tA", "tB"], targetFields := [] }) := by
  constructor
  · exact (search_requires_explicit_targets execAny execNone
      { keywords := "kw", targetTables := [], targetFields := ["msg"] }).1 rfl
  · have := (search_requires_explicit_targets execAny execNone
      { keywords := "kw", targetTables := ["tA", "tB"], targetFields := [] }).2
      (by decide) rfl
    exact ⟨this.1, this.2⟩

/-- Twenty-five placeholder hits with ids 0..24, in order. -/
def hits25 : List SearchHit :=
  (List.range 25).map (fun i => ⟨"t", toString i, [], []⟩)

/-- Claim C4, witness: on 25 merged hits, page 2 with page size 10
yields exactly the hits at original indices 10 through 19, and page 4
with page size 10 yields the empty slice. -/
theorem paginate_window_witness :
    paginateHits (some ⟨2, 10⟩) hits25 = (hits25.drop 10).take 10
    ∧ (paginateHits (some ⟨2, 10⟩) hits25).map (fun h => h.id)
        = ["10", "11", "12", "13", "14", "15", "16", "17", "18", "19"]
    ∧ paginateHits (some ⟨4, 10⟩) hits25 = [] := by
  have h2 := (paginate_window hits25 2 10 (by decide) (by decide)).1
  have h4 := (paginate_window hits25 4 10 (by decide) (by decide)).2 (by decide)
  refine ⟨h2.trans (by decide), ?_, h4⟩
  rw [h2.trans (by decide : ((hits25.drop (((2 : Int) - 1) * 10).toNat).take (10 : Int).toNat)
    = (hits25.drop 10).take 10)]
  decide

/-- The two-table request of the partial-failure scenario: table tA
will fail, table tB will succeed. -/
def reqC1 : FullTextSearchRequest :=
  { keywords := "kw"
    targetTables := ["tA", "tB"]
    targetFields := ["msg"]
    recallPriority := true }

/-- The three rows table tB answers with in the partial-failure
scenario. -/
def resC1 : QueryResult :=
  { columns := ["id", "msg"]
    rows := [[.str "1", .str "hello kw"], [.str "2", .str "kw too"], [.str "3", .str "y"]]
    stats := some {} }

/-- The `Execute` oracle of the partial-failure scenario: the query
built for table tA fails with a simulated network error, every other
query succeeds with `resC1`. -/
def execC1 : String → Except AppError QueryResult := fun sql =>
  if sql = buildTableSQL reqC1 "tA" then
    .error ⟨.NetworkError, "connection refused"⟩
  else
    .ok resC1

/-- Claim C1: when one target table's query fails (for any error) and
the other tables' queries succeed, `Search` returns a non-error result
whose hits are exactly the concatenation, in table order, of the
per-table hits — the failed table contributing nothing — so a single
table's failure never causes `Search` to return an error. -/
theorem search_partial_failure
    (exec : String → Except AppError QueryResult)
    (req : FullTextSearchRequest) (t : String)
    (hlen : 2 ≤ req.targetTables.length)
    (hmem : t ∈ req.targetTables)
    (hf : req.targetFields ≠ [])
    (hpag : req.pagination = none)
    (hfail : ∃ e, exec (buildTableSQL req t) = Except.error e)
    (hok : ∀ u ∈ req.targetTables, u ≠ t →
      ∃ r, exec (buildTableSQL req u) = Except.ok r) :
    ∃ res, Search exec req = .ok res
      ∧ res.hits = (req.targetTables.map (tableHits exec req)).flatten
      ∧ res.hits = ((req.targetTables.filter (fun u => u ≠ t)).map
          (tableHits exec req)).flatten
      ∧ tableHits exec req t = [] := by
  have ht : req.targetTables ≠ [] := by
    intro h
    rw [h] at hlen
    simp at hlen
  obtain ⟨e, he⟩ := hfail
  have htnil : tableHits exec req t = [] := by
    simp [tableHits, he]
  refine ⟨_, search_eq_of_valid exec req ht hf, ?_, ?_, htnil⟩
  · simp [hpag, paginateHits]
  · simp only [hpag, paginateHits]
    refine (join_map_filter_of_nil req.targetTables (tableHits exec req)
      (fun u => u ≠ t) ?_).symm
    intro x hx hpx
    have hxt : x = t := by simpa using hpx
    rw [hxt]
    exact htnil

/-- Claim C1, witness: two target tables where tA's query fails with a
simulated network error and tB succeeds with 3 rows — `Search` returns
exactly 3 hits, all from tB, and no error. -/
theorem search_partial_failure_witness :
    ∃ res, Search execC1 reqC1 = .ok res
      ∧ res.hits.length = 3
      ∧ res.hits.all (fun h => h.sourceTable = "tB") = true := by
  obtain ⟨res, hres, hjoin, -, -⟩ :=
    search_partial_failure execC1 reqC1 "tA" (by decide) (by decide) (by decide) rfl
      ⟨⟨.NetworkError, "connection refused"⟩, by decide⟩
      (by
        intro u hu hne
        rcases hu with _ | ⟨_, hu⟩
        · exact absurd rfl hne
        · rcases hu with _ | ⟨_, hu⟩
          · exact ⟨resC1, by decide⟩
          · cases hu)
  refine ⟨res, hres, ?_, ?_⟩
  · rw [hjoin]; decide
  · rw [hjoin]; decide

/-- Claim C6: for every `StreamLoad` call whose response body parses
into a load response, an error is returned iff the status is neither
`Success` nor `Publish Timeout`; in that case the error is a
`DatabaseError` and the parsed response is still returned alongside
it, while both accepted statuses return without error. -/
theorem streamload_status_contract
    (doRequest : StreamLoadOptions → Except String HttpResponse)
    (parse : String → Except String StreamLoadResponse)
    (opts : Option StreamLoadOptions) (resp : HttpResponse)
    (sr : StreamLoadResponse)
    (hreq : doRequest (resolveStreamLoadOptions opts) = .ok resp)
    (hparse : parse resp.body = .ok sr) :
    ((StreamLoad doRequest parse opts).2.isSome
        ↔ (sr.status ≠ "Success" ∧ sr.status ≠ "Publish Timeout"))
    ∧ (StreamLoad doRequest parse opts).1 = some sr
    ∧ (sr.status ≠ "Success" → sr.status ≠ "Publish Timeout" →
        StreamLoad doRequest parse opts
          = (some sr, some ⟨.DatabaseError,
              "StreamLoad failed: Status " ++ sr.status ++ ", Message: "
                ++ sr.message ++ ", ErrorURL: " ++ sr.errorURL⟩))
    ∧ ((sr.status = "Success" ∨ sr.status = "Publish Timeout") →
        StreamLoad doRequest parse opts = (some sr, none)) := by
  have hsl : StreamLoad doRequest parse opts
      = if sr.status ≠ "Success" ∧ sr.status ≠ "Publish Timeout" then
          (some sr, some ⟨.DatabaseError,
            "StreamLoad failed: Status " ++ sr.status ++ ", Message: "
              ++ sr.message ++ ", ErrorURL: " ++ sr.errorURL⟩)
        else (some sr, none) := by
    rw [StreamLoad]
    simp only [hreq, hparse]
  by_cases h : sr.status ≠ "Success" ∧ sr.status ≠ "Publish Timeout"
  · rw [hsl, if_pos h]
    refine ⟨by simpa using h, rfl, fun _ _ => rfl, ?_⟩
    rintro (h1 | h2)
    · exact absurd h1 h.1
    · exact absurd h2 h.2
  · rw [hsl, if_neg h]
    refine ⟨by simpa using h, rfl, fun h1 h2 => absurd ⟨h1, h2⟩ h, fun _ => rfl⟩

/-- A failed stream-load reply used as concrete input: the engine
rejected the load. -/
def srFail : StreamLoadResponse :=
  { txnID := 7, label := "load_1", status := "Fail"
    message := "too many filtered rows", errorURL := "http://fe/error_log_7" }

/-- A succeeded stream-load reply used as concrete input. -/
def srOk : StreamLoadResponse :=
  { txnID := 8, label := "load_2", status := "Success"
    numberTotalRows := 10, numberLoadedRows := 10 }

/-- A publish-timeout stream-load reply used as concrete input. -/
def srPT : StreamLoadResponse :=
  { txnID := 9, label := "load_3", status := "Publish Timeout"
    numberTotalRows := 5, numberLoadedRows := 5 }

/-- A stream-load transport oracle answering 200 OK with a fixed body
tag. -/
def doRequestWith (tag : String) : StreamLoadOptions → Except String HttpResponse :=
  fun _ => .ok ⟨200, "200 OK", tag⟩

/-- A stream-load parse oracle mapping the three body tags to the
three concrete replies. -/
def parseSL : String → Except String StreamLoadResponse := fun body =>
  if body = "fail" then .ok srFail
  else if body = "ok" then .ok srOk
  else if body = "pt" then .ok srPT
  else .error "unexpected end of JSON input"

/-- Claim C6, witness: a `Fail` status yields the parsed response plus
a `DatabaseError`; `Success` and `Publish Timeout` yield the response
with no error. -/
theorem streamload_status_contract_witness :
    StreamLoad (doRequestWith "fail") parseSL none
        = (some srFail, some ⟨.DatabaseError,
            "StreamLoad failed: Status Fail, Message: too many filtered rows, ErrorURL: http://fe/error_log_7"⟩)
    ∧ StreamLoad (doRequestWith "ok") parseSL none = (some srOk, none)
    ∧ StreamLoad (doRequestWith "pt") parseSL none = (some srPT, none) := by
  refine ⟨?_, ?_, ?_⟩
  · have := (streamload_status_contract (doRequestWith "fail") parseSL none
      ⟨200, "200 OK", "fail"⟩ srFail rfl (by decide)).2.2.1 (by decide) (by decide)
    exact this.trans (by decide)
  · exact (streamload_status_contract (doRequestWith "ok") parseSL none
      ⟨200, "200 OK", "ok"⟩ srOk rfl (by decide)).2.2.2 (Or.inl rfl)
  · exact (streamload_status_contract (doRequestWith "pt") parseSL none
      ⟨200, "200 OK", "pt"⟩ srPT rfl (by decide)).2.2.2 (Or.inr rfl)

/-- Claim C7: when the engine replies with a non-`Success` status to a
transaction-finalization call, `Commit` returns a `DatabaseError`
while `Abort` merely logs it and returns nil — the commit/abort
asymmetry. -/
theorem commit_abort_asymmetry (transport : Except String String)
    (parse : String → Except String TxnActionEnvelope)
    (body : String) (env : TxnActionEnvelope)
    (htr : transport = .ok body) (hparse : parse body = .ok env)
    (hst : env.status ≠ "Success") :
    CommitTransaction transport parse
        = some ⟨.DatabaseError,
            "failed to commit transaction: " ++ env.status ++ " - " ++ env.msg⟩
    ∧ AbortTransaction transport parse = none := by
  subst htr
  constructor
  · rw [CommitTransaction]
    simp only [hparse]
    rw [if_pos hst]
  · rw [AbortTransaction]
    simp only [hparse]

/-- A transaction-action parse oracle: the engine does not know the
transaction (already finalized or never begun). -/
def parseTxnUnknown : String → Except String TxnActionEnvelope :=
  fun _ => .ok ⟨"Fail", "transaction not found: 42"⟩

/-- Claim C7, witness: on an unknown/already-finalized transaction id
the engine replies non-`Success`; `Commit` returns a `DatabaseError`
and `Abort` returns no error. -/
theorem commit_abort_asymmetry_witness :
    CommitTransaction (.ok "body") parseTxnUnknown
        = some ⟨.DatabaseError,
            "failed to commit transaction: Fail - transaction not found: 42"⟩
    ∧ AbortTransaction (.ok "body") parseTxnUnknown = none := by
  have := commit_abort_asymmetry (.ok "body") parseTxnUnknown "body"
    ⟨"Fail", "transaction not found: 42"⟩ rfl rfl (by decide)
  exact ⟨this.1.trans (by decide), this.2⟩

/-- Claim C8: `Execute` classifies every outcome by the error
taxonomy — transport failure gives `NetworkError`; a non-OK HTTP
status gives `DatabaseError` carrying the raw body; a malformed body
gives `DeserializationError`; a non-zero envelope code gives
`DatabaseError` carrying the engine message; and on success the
returned `QueryResult` has the meta entry names, in order, as columns
and the result array as rows. -/
theorem execute_error_taxonomy (transport : Except String HttpResponse)
    (parse : String → Except String SrQueryEnvelope) :
    (∀ msg, transport = .error msg →
        Execute transport parse
          = .error ⟨.NetworkError, "failed to execute StarRocks query"⟩)
    ∧ (∀ resp, transport = .ok resp → resp.statusCode ≠ 200 →
        Execute transport parse
          = .error ⟨.DatabaseError,
              "StarRocks query failed: " ++ resp.status ++ ", Response: " ++ resp.body⟩)
    ∧ (∀ resp msg, transport = .ok resp → resp.statusCode = 200 →
        parse resp.body = .error msg →
        Execute transport parse
          = .error ⟨.DeserializationError,
              "failed to unmarshal StarRocks response: " ++ resp.body⟩)
    ∧ (∀ resp env, transport = .ok resp → resp.statusCode = 200 →
        parse resp.body = .ok env → env.code ≠ 0 →
        Execute transport parse
          = .error ⟨.DatabaseError,
              "StarRocks query error: Code " ++ toString env.code
                ++ ", Msg: " ++ env.msg⟩)
    ∧ (∀ resp env, transport = .ok resp → resp.statusCode = 200 →
        parse resp.body = .ok env → env.code = 0 →
        Execute transport parse
          = .ok { columns := env.data.meta.map (·.name)
                  rows := env.data.result
                  stats := some {} }) := by
  refine ⟨?_, ?_, ?_, ?_, ?_⟩
  · intro msg h
    rw [Execute.eq_def, h]
  · intro resp h hcode
    rw [Execute.eq_def, h]
    simp only [if_pos hcode]
  · intro resp msg h hcode hparse
    rw [Execute.eq_def, h]
    simp only [hcode, if_neg (by simp : ¬ (200 : Nat) ≠ 200), hparse]
  · intro resp env h hcode hparse hc
    rw [Execute.eq_def, h]
    simp only [hcode, if_neg (by simp : ¬ (200 : Nat) ≠ 200), hparse]
    rw [if_pos hc]
  · intro resp env h hcode hparse hc
    rw [Execute.eq_def, h]
    simp only [hcode, if_neg (by simp : ¬ (200 : Nat) ≠ 200), hparse]
    rw [if_neg (by simp [hc])]

/-- The mock envelope of the spec's `Execute` scenario: code 0, one
meta entry named x, result `[[1]]`. -/
def envMock : SrQueryEnvelope :=
  { msg := "", code := 0
    data := { meta := [⟨"x", "INT"⟩], result := [[.int 1]], property := [] } }

/-- A query parse oracle returning the mock envelope for the mock
body. -/
def parseMock : String → Except String SrQueryEnvelope := fun body =>
  if body = "mockbody" then .ok envMock else .error "unexpected end of JSON input"

/-- Claim C8, witness: against a mock returning code 0 with meta name
x and result `[[1]]`, `Execute` yields columns `[x]` and rows
`[[1]]`. -/
theorem execute_error_taxonomy_witness :
    Execute (.ok ⟨200, "200 OK", "mockbody"⟩) parseMock
      = .ok { columns := ["x"], rows := [[.int 1]], stats := some {} } := by
  have := (execute_error_taxonomy (.ok ⟨200, "200 OK", "mockbody"⟩) parseMock).2.2.2.2
    ⟨200, "200 OK", "mockbody"⟩ envMock rfl rfl (by decide) rfl
  exact this.trans (by decide)

/-- Claim C10: a nil `StreamLoad` options argument is replaced by
empty options; an empty `Format` becomes json and a zero
`TimeoutSeconds` becomes 300; every other field — and any explicitly
set format or timeout — passes through unchanged, and `StreamLoad`
behaves identically on the original and on the pre-defaulted options
(defaulting happens before the request is built). -/
theorem streamload_option_defaulting :
    resolveStreamLoadOptions none = { format := "json", timeoutSeconds := 300 }
    ∧ (∀ o : StreamLoadOptions,
        (resolveStreamLoadOptions (some o)).format
            = (if o.format = "" then "json" else o.format)
          ∧ (resolveStreamLoadOptions (some o)).timeoutSeconds
              = (if o.timeoutSeconds = 0 then 300 else o.timeoutSeconds)
          ∧ (resolveStreamLoadOptions (some o)).columnSeparator = o.columnSeparator
          ∧ (resolveStreamLoadOptions (some o)).rowDelimiter = o.rowDelimiter
          ∧ (resolveStreamLoadOptions (some o)).stripOuterArray = o.stripOuterArray
          ∧ (resolveStreamLoadOptions (some o)).maxFilterRatio = o.maxFilterRatio
          ∧ (resolveStreamLoadOptions (some o)).headers = o.headers
          ∧ (resolveStreamLoadOptions (some o)).mergeCondition = o.mergeCondition
          ∧ (resolveStreamLoadOptions (some o)).twoPhaseCommit = o.twoPhaseCommit
          ∧ (resolveStreamLoadOptions (some o)).transactionID = o.transactionID)
    ∧ (∀ o : StreamLoadOptions, o.format ≠ "" → o.timeoutSeconds ≠ 0 →
        resolveStreamLoadOptions (some o) = o)
    ∧ (∀ (doRequest : StreamLoadOptions → Except String HttpResponse)
        (parse : String → Except String StreamLoadResponse)
        (opts : Option StreamLoadOptions),
        StreamLoad doRequest parse opts
          = StreamLoad doRequest parse (some (resolveStreamLoadOptions opts))) := by
  have hresolve : ∀ o : StreamLoadOptions,
      resolveStreamLoadOptions (some o)
        = { o with
            format := if o.format = "" then "json" else o.format
            timeoutSeconds := if o.timeoutSeconds = 0 then 300 else o.timeoutSeconds } := by
    intro o
    rw [resolveStreamLoadOptions]
    by_cases h1 : o.format = "" <;> by_cases h2 : o.timeoutSeconds = 0 <;>
      simp [h1, h2]
  have hidem : ∀ opts, resolveStreamLoadOptions (some (resolveStreamLoadOptions opts))
      = resolveStreamLoadOptions opts := by
    intro opts
    rw [hresolve]
    have hf : (resolveStreamLoadOptions opts).format ≠ "" := by
      cases opts with
      | none => decide
      | some o =>
        rw [hresolve]
        by_cases h1 : o.format = "" <;> simp [h1]
    have ht : (resolveStreamLoadOptions opts).timeoutSeconds ≠ 0 := by
      cases opts with
      | none => decide
      | some o =>
        rw [hresolve]
        by_cases h2 : o.timeoutSeconds = 0 <;> simp [h2]
    simp [hf, ht]
  refine ⟨by decide, ?_, ?_, ?_⟩
  · intro o
    rw [hresolve]
    exact ⟨rfl, rfl, rfl, rfl, rfl, rfl, rfl, rfl, rfl, rfl⟩
  · intro o h1 h2
    rw [hresolve]
    simp [h1, h2]
  · intro doRequest parse opts
    rw [StreamLoad, StreamLoad, hidem]

/-- Claim C10, witness: explicitly set options pass through unchanged,
while a nil argument yields json format and a 300-second timeout. -/
theorem streamload_option_defaulting_witness :
    resolveStreamLoadOptions
        (some { format := "csv", timeoutSeconds := 42, columnSeparator := ",",
                mergeCondition := "cond" })
      = { format := "csv", timeoutSeconds := 42, columnSeparator := ",",
          mergeCondition := "cond" }
    ∧ resolveStreamLoadOptions none = { format := "json", timeoutSeconds := 300 } := by
  refine ⟨?_, streamload_option_defaulting.1⟩
  exact streamload_option_defaulting.2.2.1
    { format := "csv", timeoutSeconds := 42, columnSeparator := ",",
      mergeCondition := "cond" } (by decide) (by decide)

/-- The engine's reply to a `txn_action=begin` whose label is already
attached to an open transaction (id 42): a non-`Success` status.  The
begin-response struct parsed by the client carries only `Status`,
`TxnId` and `msg`. -/
def dupLabelEnv : TxnBeginEnvelope :=
  { status := "Label Already Exists", txnId := 0
    msg := "label dataseap_load_1 already used by txn 42" }

/-- A begin-transaction parse oracle returning the duplicate-label
reply. -/
def parseDupLabel : String → Except String TxnBeginEnvelope :=
  fun _ => .ok dupLabelEnv

/-- Claim C2, counterexample: on reusing a label of a still-open
transaction (existing id 42) the engine replies with a non-`Success`
status, and `BeginTransaction` returns a `DatabaseError` — it does not
return the transaction id 42 (nor any id), and no `ExistingTxnId`
field is surfaced, since the struct the client parses the begin
response into has no such member. -/
theorem begin_duplicate_label_cex :
    BeginTransaction (.ok "body") parseDupLabel
        = .error ⟨.DatabaseError,
            "failed to begin transaction: Label Already Exists - label dataseap_load_1 already used by txn 42"⟩
    ∧ ∀ txnId : Int, BeginTransaction (.ok "body") parseDupLabel ≠ .ok txnId := by
  constructor
  · decide
  · intro txnId h
    have : (Except.error
        (⟨.DatabaseError,
          "failed to begin transaction: Label Already Exists - label dataseap_load_1 already used by txn 42"⟩ : AppError)
        : Except AppError Int) = .ok txnId := by
      rw [← h]
      decide
    exact Except.noConfusion this

/-- Claim C2, amended: whenever the begin response parses with a
non-`Success` status — the duplicate-label case included —
`BeginTransaction` returns a `DatabaseError` built from the status and
engine message; the pre-existing transaction id is not surfaced (the
parsed struct has no `ExistingTxnId` member), so begin is not
idempotent on label reuse. -/
theorem begin_nonsuccess_database_error (transport : Except String String)
    (parse : String → Except String TxnBeginEnvelope)
    (body : String) (env : TxnBeginEnvelope)
    (htr : transport = .ok body) (hparse : parse body = .ok env)
    (hst : env.status ≠ "Success") :
    BeginTransaction transport parse
      = .error ⟨.DatabaseError,
          "failed to begin transaction: " ++ env.status ++ " - " ++ env.msg⟩ := by
  subst htr
  rw [BeginTransaction]
  simp only [hparse]
  rw [if_pos hst]

/-- Claim C2, witness for the amended theorem: the duplicate-label
reply makes `BeginTransaction` return a `DatabaseError`. -/
theorem begin_nonsuccess_database_error_witness :
    BeginTransaction (.ok "body") parseDupLabel
      = .error ⟨.DatabaseError,
          "failed to begin transaction: Label Already Exists - label dataseap_load_1 already used by txn 42"⟩ := by
  have := begin_nonsuccess_database_error (.ok "body") parseDupLabel "body"
    dupLabelEnv rfl rfl (by decide)
  exact this.trans (by decide)

end DataSeap
